import Mathlib

/-!
Shallow embedding of the scoring and tier-transition engine of
src/app.py (class RemoteHomeCheckScorer).  The question definitions and
the event-impact table are transcribed verbatim from the source.  Python
dictionaries with unique keys are modelled as association lists with
first-match lookup.  Python floats are modelled by rationals: every
insight score the engine produces is an exact multiple of one tenth, a
regime in which double arithmetic followed by round(x, 1) and exact
rational arithmetic followed by rational rounding agree, and in which
round-half-to-even (Python) and round-half-up coincide because no exact
half ever occurs.
-/

namespace RemoteHomeCheckScorer

/-- Care-urgency tier: the four values returned by get_insight_tier in
the source, ordered by decreasing wellbeing. -/
inductive Tier where
  | Independent
  | Monitor
  | Assist
  | Intervene
deriving DecidableEq, Fintype

/-- One questionnaire question: stable name, display label, and the list
of permitted options (self.questions entries in app.py). -/
structure Question where
  name : String
  label : String
  options : List String
deriving DecidableEq

/-- The nine question definitions, transcribed from self.questions in
app.py lines 20-66. -/
def questions : List Question := [
  { name := "fall_risk", label := "Fall Risk Assessment",
    options := ["Low", "Moderate", "High"] },
  { name := "medication_adherence", label := "Medication Adherence",
    options := ["Excellent (95-100%)", "Good (80-94%)", "Fair (65-79%)", "Poor (Below 65%)"] },
  { name := "cognitive_function", label := "Cognitive Function Score",
    options := ["Normal (26-30)", "Mild Impairment (21-25)", "Moderate Impairment (10-20)",
      "Severe Impairment (0-9)"] },
  { name := "uti_risk", label := "UTI Risk Factors",
    options := ["Low Risk", "Moderate Risk", "High Risk"] },
  { name := "balance_test", label := "Balance Test Result",
    options := ["Excellent (45-56 seconds)", "Good (35-44 seconds)", "Fair (25-34 seconds)",
      "Poor (Below 25 seconds)"] },
  { name := "driving_safety", label := "Driving Safety Status",
    options := ["Safe Driver", "Minor Concerns", "Major Concerns", "Unsafe to Drive"] },
  { name := "nighttime_movement", label := "Nighttime Movement Patterns",
    options := ["Normal Patterns", "Slightly Increased", "Significantly Increased",
      "Concerning Patterns"] },
  { name := "social_engagement", label := "Social Engagement Level",
    options := ["Highly Engaged", "Moderately Engaged", "Minimally Engaged",
      "Socially Isolated"] },
  { name := "toilet_flush_count", label := "Daily Toilet Flush Count",
    options := ["Normal (6-8 times)", "Slightly Elevated (9-12 times)", "Elevated (13-16 times)",
      "Very High (17+ times)"] }
]

/-- Event impact mapping, transcribed from self.event_impacts in app.py
lines 97-150: question name to option to (physical delta, mental delta). -/
def event_impacts : List (String × List (String × (Int × Int))) := [
  ("fall_risk",
    [("Low", (0, 0)), ("Moderate", (-3, 0)), ("High", (-8, 0))]),
  ("medication_adherence",
    [("Excellent (95-100%)", (0, 0)), ("Good (80-94%)", (0, 0)),
     ("Fair (65-79%)", (-1, -1)), ("Poor (Below 65%)", (-2, -2))]),
  ("cognitive_function",
    [("Normal (26-30)", (0, 0)), ("Mild Impairment (21-25)", (0, -1)),
     ("Moderate Impairment (10-20)", (0, -3)), ("Severe Impairment (0-9)", (0, -5))]),
  ("uti_risk",
    [("Low Risk", (0, 0)), ("Moderate Risk", (-2, 0)), ("High Risk", (-4, 0))]),
  ("balance_test",
    [("Excellent (45-56 seconds)", (0, 0)), ("Good (35-44 seconds)", (0, 0)),
     ("Fair (25-34 seconds)", (-1, 0)), ("Poor (Below 25 seconds)", (-2, 0))]),
  ("driving_safety",
    [("Safe Driver", (0, 0)), ("Minor Concerns", (-1, 0)),
     ("Major Concerns", (-2, 0)), ("Unsafe to Drive", (-3, 0))]),
  ("nighttime_movement",
    [("Normal Patterns", (0, 0)), ("Slightly Increased", (0, 0)),
     ("Significantly Increased", (-1, -1)), ("Concerning Patterns", (-2, -2))]),
  ("social_engagement",
    [("Highly Engaged", (0, 0)), ("Moderately Engaged", (0, 0)),
     ("Minimally Engaged", (0, -2)), ("Socially Isolated", (0, -4))]),
  ("toilet_flush_count",
    [("Normal (6-8 times)", (0, 0)), ("Slightly Elevated (9-12 times)", (0, 0)),
     ("Elevated (13-16 times)", (-1, 0)), ("Very High (17+ times)", (-2, 0))])
]

/-- Resolution of one (question, option) pair against the impact table,
embedding the guard on app.py line 211: the question name must be a key
of event_impacts and the response a key of its sub-table. -/
def lookupImpact (question response : String) : Option (Int × Int) :=
  match event_impacts.lookup question with
  | some sub => sub.lookup response
  | none => none

/-- One step of the delta-accumulation loop of calculate_scores (app.py
lines 210-214): a resolvable entry adds its impacts, anything else is
skipped silently. -/
def resolveStep (acc : Int × Int) (entry : String × String) : Int × Int :=
  match lookupImpact entry.1 entry.2 with
  | some impact => (acc.1 + impact.1, acc.2 + impact.2)
  | none => acc

/-- Summed (physical_delta, mental_delta) over a response mapping,
starting from (0, 0), as in app.py lines 206-214. -/
def resolveDeltas (responses : List (String × String)) : Int × Int :=
  responses.foldl resolveStep (0, 0)

/-- Round-half-to-even on rationals, the convention of the Python
built-in round applied by app.py line 219. -/
def round_half_even (x : ℚ) : ℤ :=
  if x - Int.floor x < 1 / 2 then Int.floor x
  else if x - Int.floor x > 1 / 2 then Int.floor x + 1
  else if Int.floor x % 2 = 0 then Int.floor x else Int.floor x + 1

/-- Rounding to one decimal place, the round(x, 1) of app.py line 219. -/
def round1 (x : ℚ) : ℚ := (round_half_even (10 * x) : ℚ) / 10

/-- Tier classification of get_insight_tier (app.py lines 230-239). -/
def get_insight_tier (score : ℚ) : Tier :=
  if score ≥ 90 then Tier.Independent
  else if score ≥ 70 then Tier.Monitor
  else if score ≥ 50 then Tier.Assist
  else Tier.Intervene

/-- The result dictionary of calculate_scores (app.py lines 221-228). -/
structure ScoreResult where
  physical_score : Int
  mental_score : Int
  insight_score : ℚ
  tier : Tier
  physical_delta : Int
  mental_delta : Int
deriving DecidableEq

/-- calculate_scores (app.py lines 201-228): accumulate deltas over the
responses, clamp the baseline-100 scores to [0, 100], take the rounded
0.6/0.4 weighted composite and classify it into a tier. -/
def calculate_scores (responses : List (String × String)) : ScoreResult :=
  let deltas := resolveDeltas responses
  let physical_delta := deltas.1
  let mental_delta := deltas.2
  let physical_score : Int := max 0 (min 100 (100 + physical_delta))
  let mental_score : Int := max 0 (min 100 (100 + mental_delta))
  let insight_score : ℚ :=
    round1 ((0.6 : ℚ) * (physical_score : ℚ) + (0.4 : ℚ) * (mental_score : ℚ))
  { physical_score := physical_score
    mental_score := mental_score
    insight_score := insight_score
    tier := get_insight_tier insight_score
    physical_delta := physical_delta
    mental_delta := mental_delta }

/-- The per-tier default recommendations, the suggestions dictionary of
get_care_plan_suggestion (app.py lines 243-248). -/
def suggestions (tier : Tier) : String :=
  match tier with
  | Tier.Independent =>
      "Resume standard monitoring; schedule motivational check-in and goal-setting session"
  | Tier.Monitor =>
      "Conduct comprehensive medication reconciliation; recommend a daytime activity or exercise program"
  | Tier.Assist =>
      "Arrange part-time home-care aide (e.g., 12h/week); review medication-adherence log"
  | Tier.Intervene =>
      "Recommend car-key removal; seek a senior-living community or arrange for a full-time in-home provider; enrol in fall-prevention PT"

/-- get_care_plan_suggestion (app.py lines 241-258): transition
overrides apply only when a previous tier is present and differs from
the current tier, checked in source order, with the per-tier default as
fallback. -/
def get_care_plan_suggestion (tier : Tier) (previous_tier : Option Tier) : String :=
  match previous_tier with
  | some prev =>
    if tier ≠ prev then
      if tier = Tier.Monitor ∧ prev = Tier.Independent then
        "Schedule balance & home-safety assessment; brief caregiver check-in"
      else if tier = Tier.Assist ∧ (prev = Tier.Independent ∨ prev = Tier.Monitor) then
        "Initiate physical-therapy evaluation; schedule telehealth PCP visit within 72h"
      else if tier = Tier.Intervene then
        "Convene multidisciplinary care conference (PCP, PT/OT, social worker); consider long-term-care placement"
      else suggestions tier
    else suggestions tier
  | none => suggestions tier

/-- One iteration of the validation loop of validate_responses (app.py
lines 186-197): a missing response or an unlisted option appends one
error message, a valid response is collected. -/
def validateStep (responses : List (String × String))
    (acc : List (String × String) × List String) (question : Question) :
    List (String × String) × List String :=
  match responses.lookup question.name with
  | none => (acc.1, acc.2 ++ ["Missing response for " ++ question.name])
  | some response =>
    if response ∈ question.options then
      (acc.1 ++ [(question.name, response)], acc.2)
    else
      (acc.1, acc.2 ++ ["Invalid response " ++ response ++ " for " ++ question.name])

/-- validate_responses (app.py lines 181-199): iterate over the nine
question definitions, returning the collected valid responses and the
list of error messages. -/
def validate_responses (responses : List (String × String)) :
    List (String × String) × List String :=
  questions.foldl (validateStep responses) ([], [])

/-- Patient sub-dictionary of the assessment payload; only the fields the
modelled control flow inspects (app.py lines 163-168 and 474-476). -/
structure Patient where
  email : Option String
  name : Option String
  previous_tier : Option Tier

/-- Incoming assessment payload: each required field is optional because
the source checks for its presence (app.py lines 156-177). -/
structure AssessmentData where
  timestamp : Option String
  patient : Option Patient
  responses : Option (List (String × String))

/-- validate_assessment_json (app.py lines 152-179): missing-field
errors, the patient email check, and the response validation errors,
in source order. -/
def validate_assessment_json (d : AssessmentData) : List String :=
  ((if d.timestamp.isNone then ["Missing required field: timestamp"] else []) ++
   (if d.patient.isNone then ["Missing required field: patient"] else []) ++
   (if d.responses.isNone then ["Missing required field: responses"] else [])) ++
  (match d.patient with
   | some p => if p.email.isNone then ["Missing patient email"] else []
   | none => []) ++
  (match d.responses with
   | some r => (validate_responses r).2
   | none => [])

/-- Outcome of process_assessment: the error dictionary or the computed
scores.  Persistence, PDF rendering and email dispatch are external
side effects performed after the scores are computed and do not alter
which of the two outcomes is produced nor the ScoreResult value. -/
inductive ProcResult where
  | err (msg : String) (details : List String)
  | ok (scores : ScoreResult)
deriving DecidableEq

/-- Result-selection control flow of process_assessment (app.py lines
465-485): abort with a structured error when validation of the payload
or of the responses fails, otherwise score the validated responses. -/
def process_assessment (d : AssessmentData) : ProcResult :=
  let errors := validate_assessment_json d
  if errors = [] then
    let responses := d.responses.getD []
    let validated := validate_responses responses
    if validated.2 = [] then ProcResult.ok (calculate_scores validated.1)
    else ProcResult.err "Invalid responses" validated.2
  else ProcResult.err "Invalid assessment data" errors

/-- The worst-case ResponseSet: every question answered with its
highest-impact (most negative) option from event_impacts. -/
def worstCaseResponses : List (String × String) := [
  ("fall_risk", "High"),
  ("medication_adherence", "Poor (Below 65%)"),
  ("cognitive_function", "Severe Impairment (0-9)"),
  ("uti_risk", "High Risk"),
  ("balance_test", "Poor (Below 25 seconds)"),
  ("driving_safety", "Unsafe to Drive"),
  ("nighttime_movement", "Concerning Patterns"),
  ("social_engagement", "Socially Isolated"),
  ("toilet_flush_count", "Very High (17+ times)")
]

end RemoteHomeCheckScorer

namespace RemoteHomeCheckScorer

/- Helper lemmas about the rounding function and the fields of
calculate_scores. -/

lemma round_half_even_intCast (k : ℤ) : round_half_even (k : ℚ) = k := by
  unfold round_half_even
  rw [Int.floor_intCast]
  norm_num

lemma round1_tenths (k : ℤ) : round1 ((k : ℚ) / 10) = (k : ℚ) / 10 := by
  have h : (10 : ℚ) * ((k : ℚ) / 10) = (k : ℚ) := by field_simp
  unfold round1
  rw [h, round_half_even_intCast]

lemma weighted_sum_eq (p m : ℤ) :
    (0.6 : ℚ) * (p : ℚ) + (0.4 : ℚ) * (m : ℚ) = ((6 * p + 4 * m : ℤ) : ℚ) / 10 := by
  push_cast
  ring_nf

lemma cs_physical_delta (rs : List (String × String)) :
    (calculate_scores rs).physical_delta = (resolveDeltas rs).1 := rfl

lemma cs_mental_delta (rs : List (String × String)) :
    (calculate_scores rs).mental_delta = (resolveDeltas rs).2 := rfl

lemma cs_physical_score (rs : List (String × String)) :
    (calculate_scores rs).physical_score = max 0 (min 100 (100 + (resolveDeltas rs).1)) := rfl

lemma cs_mental_score (rs : List (String × String)) :
    (calculate_scores rs).mental_score = max 0 (min 100 (100 + (resolveDeltas rs).2)) := rfl

lemma cs_insight (rs : List (String × String)) :
    (calculate_scores rs).insight_score =
      round1 ((0.6 : ℚ) * ((calculate_scores rs).physical_score : ℚ) +
        (0.4 : ℚ) * ((calculate_scores rs).mental_score : ℚ)) := rfl

lemma cs_tier (rs : List (String × String)) :
    (calculate_scores rs).tier = get_insight_tier ((calculate_scores rs).insight_score) := rfl

lemma cs_insight_exact (rs : List (String × String)) :
    (calculate_scores rs).insight_score =
      ((6 * (calculate_scores rs).physical_score +
        4 * (calculate_scores rs).mental_score : ℤ) : ℚ) / 10 := by
  rw [cs_insight, weighted_sum_eq, round1_tenths]

lemma resolveDeltas_append_none (rs : List (String × String)) (q o : String)
    (h : lookupImpact q o = none) :
    resolveDeltas (rs ++ [(q, o)]) = resolveDeltas rs := by
  unfold resolveDeltas
  rw [List.foldl_append]
  simp [resolveStep, h]

/-- C1 counterexample: on the worst-case ResponseSet the summed deltas are
only -23 and -13, which do not exceed -100 in magnitude, and the computed
scores are not the claimed 0 / 0 / 0.0 / Intervene. -/
theorem worst_case_counterexample :
    (calculate_scores worstCaseResponses).physical_delta = -23 ∧
    (calculate_scores worstCaseResponses).mental_delta = -13 ∧
    (-100 : ℤ) < (calculate_scores worstCaseResponses).physical_delta ∧
    (-100 : ℤ) < (calculate_scores worstCaseResponses).mental_delta ∧
    ¬((calculate_scores worstCaseResponses).physical_score = 0 ∧
      (calculate_scores worstCaseResponses).mental_score = 0 ∧
      (calculate_scores worstCaseResponses).insight_score = 0 ∧
      (calculate_scores worstCaseResponses).tier = Tier.Intervene) := by
  refine ⟨by decide, by decide, by decide, by decide, ?_⟩
  rintro ⟨h, -, -, -⟩
  rw [show (calculate_scores worstCaseResponses).physical_score = 77 from by decide] at h
  exact absurd h (by decide)

/-- C1 amended: the worst-case ResponseSet, every question answered with
its highest-impact option, yields physical_delta = -23, mental_delta =
-13, physical_score = 77, mental_score = 87, insight_score = 81.0 and
tier = Monitor. -/
theorem worst_case_scores :
    (calculate_scores worstCaseResponses).physical_score = 77 ∧
    (calculate_scores worstCaseResponses).mental_score = 87 ∧
    (calculate_scores worstCaseResponses).insight_score = 81 ∧
    (calculate_scores worstCaseResponses).tier = Tier.Monitor ∧
    (calculate_scores worstCaseResponses).physical_delta = -23 ∧
    (calculate_scores worstCaseResponses).mental_delta = -13 := by
  have hi : (calculate_scores worstCaseResponses).insight_score = 81 := by
    rw [cs_insight_exact,
      show (calculate_scores worstCaseResponses).physical_score = 77 from by decide,
      show (calculate_scores worstCaseResponses).mental_score = 87 from by decide]
    norm_num
  refine ⟨by decide, by decide, hi, ?_, by decide, by decide⟩
  rw [cs_tier, hi]
  unfold get_insight_tier
  norm_num

/-- C2: get_insight_tier is the step function with lower-bound-inclusive
bands 90/70/50, and the six stated boundary scores classify as claimed. -/
theorem tier_step_function :
    (∀ s : ℚ,
      (get_insight_tier s = Tier.Independent ↔ 90 ≤ s) ∧
      (get_insight_tier s = Tier.Monitor ↔ 70 ≤ s ∧ s < 90) ∧
      (get_insight_tier s = Tier.Assist ↔ 50 ≤ s ∧ s < 70) ∧
      (get_insight_tier s = Tier.Intervene ↔ s < 50)) ∧
    get_insight_tier 90 = Tier.Independent ∧
    get_insight_tier (89.9 : ℚ) = Tier.Monitor ∧
    get_insight_tier 70 = Tier.Monitor ∧
    get_insight_tier (69.9 : ℚ) = Tier.Assist ∧
    get_insight_tier 50 = Tier.Assist ∧
    get_insight_tier (49.9 : ℚ) = Tier.Intervene := by
  refine ⟨fun s => ?_, ?_, ?_, ?_, ?_, ?_, ?_⟩
  · unfold get_insight_tier
    split_ifs with h1 h2 h3 <;> refine ⟨?_, ?_, ?_, ?_⟩ <;> simp_all <;> intros <;> linarith
  all_goals unfold get_insight_tier
  all_goals norm_num

/-- C3: for every ResponseSet of resolvable pairs the scores are the
clamped baseline-plus-delta values and lie in [0, 100]. -/
theorem scores_clamped :
    ∀ rs : List (String × String),
      (∀ e ∈ rs, (lookupImpact e.1 e.2).isSome = true) →
      (calculate_scores rs).physical_score =
        max 0 (min 100 (100 + (calculate_scores rs).physical_delta)) ∧
      (calculate_scores rs).mental_score =
        max 0 (min 100 (100 + (calculate_scores rs).mental_delta)) ∧
      0 ≤ (calculate_scores rs).physical_score ∧
      (calculate_scores rs).physical_score ≤ 100 ∧
      0 ≤ (calculate_scores rs).mental_score ∧
      (calculate_scores rs).mental_score ≤ 100 := by
  intro rs _
  refine ⟨rfl, rfl, ?_, ?_, ?_, ?_⟩ <;>
    simp only [cs_physical_score, cs_mental_score] <;> omega

/-- C3 witness: the clamp formula and the [0, 100] bounds hold at the
concrete worst-case ResponseSet, whose pairs are all resolvable. -/
theorem scores_clamped_witness :
    (∀ e ∈ worstCaseResponses, (lookupImpact e.1 e.2).isSome = true) ∧
    ((calculate_scores worstCaseResponses).physical_score =
        max 0 (min 100 (100 + (calculate_scores worstCaseResponses).physical_delta)) ∧
      (calculate_scores worstCaseResponses).mental_score =
        max 0 (min 100 (100 + (calculate_scores worstCaseResponses).mental_delta)) ∧
      0 ≤ (calculate_scores worstCaseResponses).physical_score ∧
      (calculate_scores worstCaseResponses).physical_score ≤ 100 ∧
      0 ≤ (calculate_scores worstCaseResponses).mental_score ∧
      (calculate_scores worstCaseResponses).mental_score ≤ 100) :=
  ⟨by decide, scores_clamped worstCaseResponses (by decide)⟩

/-- C4: the insight score is exactly the rounded 0.6/0.4 weighted blend
of the clamped scores; the rounding is exact on the reachable values, so
the source round-half-even and the round-half-up convention agree. -/
theorem insight_weighted_round :
    ∀ rs : List (String × String),
      (calculate_scores rs).insight_score =
        round1 ((0.6 : ℚ) * ((calculate_scores rs).physical_score : ℚ) +
          (0.4 : ℚ) * ((calculate_scores rs).mental_score : ℚ)) ∧
      (calculate_scores rs).insight_score =
        (round ((10 : ℚ) * ((0.6 : ℚ) * ((calculate_scores rs).physical_score : ℚ) +
          (0.4 : ℚ) * ((calculate_scores rs).mental_score : ℚ))) : ℚ) / 10 ∧
      (calculate_scores rs).insight_score =
        ((6 * (calculate_scores rs).physical_score +
          4 * (calculate_scores rs).mental_score : ℤ) : ℚ) / 10 := by
  intro rs
  have hm : (10 : ℚ) * (((6 * (calculate_scores rs).physical_score +
      4 * (calculate_scores rs).mental_score : ℤ) : ℚ) / 10) =
      ((6 * (calculate_scores rs).physical_score +
        4 * (calculate_scores rs).mental_score : ℤ) : ℚ) := by
    field_simp
  refine ⟨cs_insight rs, ?_, cs_insight_exact rs⟩
  rw [weighted_sum_eq, hm, round_intCast, cs_insight_exact]

/-- C5: whenever a previous tier is present and differs from the current
tier and the current tier is Intervene, the advisor returns the
multidisciplinary-care-conference recommendation, for every previous
tier; in particular for previous tier Monitor. -/
theorem intervene_transition_override :
    (∀ prev : Tier, prev ≠ Tier.Intervene →
      get_care_plan_suggestion Tier.Intervene (some prev) =
        "Convene multidisciplinary care conference (PCP, PT/OT, social worker); consider long-term-care placement") ∧
    get_care_plan_suggestion Tier.Intervene (some Tier.Monitor) =
      "Convene multidisciplinary care conference (PCP, PT/OT, social worker); consider long-term-care placement" := by
  constructor
  · intro prev h
    cases prev
    · rfl
    · rfl
    · rfl
    · exact absurd rfl h
  · rfl

/-- C5 witness: the override fires concretely for the Monitor-to-Intervene
transition. -/
theorem intervene_transition_override_witness :
    Tier.Monitor ≠ Tier.Intervene ∧
    get_care_plan_suggestion Tier.Intervene (some Tier.Monitor) =
      "Convene multidisciplinary care conference (PCP, PT/OT, social worker); consider long-term-care placement" :=
  ⟨by decide, intervene_transition_override.1 Tier.Monitor (by decide)⟩

set_option maxRecDepth 10000 in
/-- C6: the Care-Plan Advisor is total with a non-empty recommendation on
all 4 x 5 tier and previous-tier combinations, and an absent or equal
previous tier yields the steady-state per-tier default. -/
theorem care_plan_total :
    (∀ t : Tier, ∀ p : Option Tier, (get_care_plan_suggestion t p).length ≠ 0) ∧
    (∀ t : Tier, get_care_plan_suggestion t none = suggestions t ∧
      get_care_plan_suggestion t (some t) = suggestions t) := by
  decide

/-- C7: an entry whose question is not a key of the impact table, or
whose option is not a key of the question sub-table, contributes nothing:
appending it to any ResponseSet leaves the ScoreResult unchanged. -/
theorem unresolvable_skipped :
    ∀ (rs : List (String × String)) (q o : String),
      (event_impacts.lookup q = none ∨
        ∀ sub, event_impacts.lookup q = some sub → sub.lookup o = none) →
      calculate_scores (rs ++ [(q, o)]) = calculate_scores rs := by
  intro rs q o h
  have hN : lookupImpact q o = none := by
    unfold lookupImpact
    rcases h with h | h
    · rw [h]
    · cases hq : event_impacts.lookup q with
      | none => rfl
      | some sub => exact h sub hq
  unfold calculate_scores
  rw [resolveDeltas_append_none rs q o hN]

/-- C7 witness: appending an entry for an unknown question name to a
concrete ResponseSet leaves the ScoreResult unchanged. -/
theorem unresolvable_skipped_witness :
    event_impacts.lookup "hydration_level" = none ∧
    calculate_scores ([("fall_risk", "Low")] ++ [("hydration_level", "Low")]) =
      calculate_scores [("fall_risk", "Low")] :=
  ⟨by decide,
    unresolvable_skipped [("fall_risk", "Low")] "hydration_level" "Low" (Or.inl (by decide))⟩

set_option maxRecDepth 10000 in
/-- C9: every (question, option) pair of the question definitions has an
entry in the impact table, and every delta in the table lies in [-8, 0]. -/
theorem impact_table_invariant :
    (questions.all (fun q => q.options.all (fun o => (lookupImpact q.name o).isSome))) = true ∧
    (event_impacts.all (fun qe => qe.2.all (fun oe =>
      decide (-8 ≤ oe.2.1) && decide (oe.2.1 ≤ 0) &&
      decide (-8 ≤ oe.2.2) && decide (oe.2.2 ≤ 0)))) = true := by
  decide

end RemoteHomeCheckScorer

namespace RemoteHomeCheckScorer

/- Helper lemmas about the delta-accumulation fold and the validation
loop. -/

lemma resolveDeltas_nil : resolveDeltas [] = (0, 0) := rfl

lemma foldl_resolveStep_shift (l : List (String × String)) (acc : Int × Int) :
    l.foldl resolveStep acc = (acc.1 + (resolveDeltas l).1, acc.2 + (resolveDeltas l).2) := by
  induction l generalizing acc with
  | nil => simp [resolveDeltas]
  | cons e l ih =>
    simp only [List.foldl_cons, resolveDeltas] at *
    rw [ih (resolveStep acc e), ih (resolveStep (0, 0) e)]
    cases h : lookupImpact e.1 e.2 <;> simp [resolveStep, h] <;> exact ⟨by ring, by ring⟩

lemma resolveDeltas_cons_some (q o : String) (rest : List (String × String))
    (pm : Int × Int) (h : lookupImpact q o = some pm) :
    resolveDeltas ((q, o) :: rest) =
      (pm.1 + (resolveDeltas rest).1, pm.2 + (resolveDeltas rest).2) := by
  show ((q, o) :: rest).foldl resolveStep (0, 0) = _
  rw [List.foldl_cons, foldl_resolveStep_shift]
  simp [resolveStep, h, resolveDeltas]

lemma validate_foldl_ok (rs : List (String × String)) :
    ∀ (qs : List Question) (acc : List (String × String) × List String),
      (qs.foldl (validateStep rs) acc).2 = [] →
      acc.2 = [] ∧
      (∀ q ∈ qs, ∃ v, rs.lookup q.name = some v ∧ v ∈ q.options) ∧
      (qs.foldl (validateStep rs) acc).1 =
        acc.1 ++ qs.map (fun q => (q.name, (rs.lookup q.name).getD "")) := by
  intro qs
  induction qs with
  | nil =>
    intro acc h
    exact ⟨h, by simp, by simp⟩
  | cons q qs ih =>
    intro acc h
    rw [List.foldl_cons] at h
    obtain ⟨hstep, hgood, hvalid⟩ := ih (validateStep rs acc q) h
    cases hl : rs.lookup q.name with
    | none => simp [validateStep, hl] at hstep
    | some v =>
      by_cases hv : v ∈ q.options
      · have hs : validateStep rs acc q = (acc.1 ++ [(q.name, v)], acc.2) := by
          simp [validateStep, hl, hv]
        rw [hs] at hstep hvalid
        refine ⟨hstep, ?_, ?_⟩
        · intro q' hq'
          rcases List.mem_cons.mp hq' with rfl | hq'
          · exact ⟨v, hl, hv⟩
          · exact hgood q' hq'
        · rw [List.foldl_cons, hs, hvalid]
          simp [hl]
      · simp [validateStep, hl, hv] at hstep

lemma validate_foldl_count (rs : List (String × String)) :
    ∀ (qs : List Question) (acc : List (String × String) × List String),
      ((qs.foldl (validateStep rs) acc).2).length =
        acc.2.length +
        (qs.filter (fun q => (rs.lookup q.name).isNone)).length +
        (qs.filter (fun q =>
          match rs.lookup q.name with
          | some v => decide (v ∉ q.options)
          | none => false)).length := by
  intro qs
  induction qs with
  | nil => intro acc; simp
  | cons q qs ih =>
    intro acc
    rw [List.foldl_cons]
    cases hl : rs.lookup q.name with
    | none =>
      have hs : validateStep rs acc q =
          (acc.1, acc.2 ++ ["Missing response for " ++ q.name]) := by
        simp [validateStep, hl]
      rw [hs, ih]
      simp [List.filter_cons, hl]
      omega
    | some v =>
      by_cases hv : v ∈ q.options
      · have hs : validateStep rs acc q = (acc.1 ++ [(q.name, v)], acc.2) := by
          simp [validateStep, hl, hv]
        rw [hs, ih]
        simp [List.filter_cons, hl, hv]
      · have hs : validateStep rs acc q =
            (acc.1, acc.2 ++ ["Invalid response " ++ v ++ " for " ++ q.name]) := by
          simp [validateStep, hl, hv]
        rw [hs, ih]
        simp [List.filter_cons, hl, hv]
        omega

/- Per-question impact bounds: for every permitted option the impact
table resolves and its deltas lie between the question minimum and 0. -/

lemma impact_opt_fall_risk (v : String) (hv : v ∈ ["Low", "Moderate", "High"]) :
    ∃ pm : Int × Int, lookupImpact "fall_risk" v = some pm ∧
      -8 ≤ pm.1 ∧ pm.1 ≤ 0 ∧ 0 ≤ pm.2 ∧ pm.2 ≤ 0 := by
  fin_cases hv
  · exact ⟨(0, 0), by decide⟩
  · exact ⟨(-3, 0), by decide⟩
  · exact ⟨(-8, 0), by decide⟩

lemma impact_opt_medication (v : String)
    (hv : v ∈ ["Excellent (95-100%)", "Good (80-94%)", "Fair (65-79%)", "Poor (Below 65%)"]) :
    ∃ pm : Int × Int, lookupImpact "medication_adherence" v = some pm ∧
      -2 ≤ pm.1 ∧ pm.1 ≤ 0 ∧ -2 ≤ pm.2 ∧ pm.2 ≤ 0 := by
  fin_cases hv
  · exact ⟨(0, 0), by decide⟩
  · exact ⟨(0, 0), by decide⟩
  · exact ⟨(-1, -1), by decide⟩
  · exact ⟨(-2, -2), by decide⟩

lemma impact_opt_cognitive (v : String)
    (hv : v ∈ ["Normal (26-30)", "Mild Impairment (21-25)", "Moderate Impairment (10-20)",
      "Severe Impairment (0-9)"]) :
    ∃ pm : Int × Int, lookupImpact "cognitive_function" v = some pm ∧
      0 ≤ pm.1 ∧ pm.1 ≤ 0 ∧ -5 ≤ pm.2 ∧ pm.2 ≤ 0 := by
  fin_cases hv
  · exact ⟨(0, 0), by decide⟩
  · exact ⟨(0, -1), by decide⟩
  · exact ⟨(0, -3), by decide⟩
  · exact ⟨(0, -5), by decide⟩

lemma impact_opt_uti (v : String) (hv : v ∈ ["Low Risk", "Moderate Risk", "High Risk"]) :
    ∃ pm : Int × Int, lookupImpact "uti_risk" v = some pm ∧
      -4 ≤ pm.1 ∧ pm.1 ≤ 0 ∧ 0 ≤ pm.2 ∧ pm.2 ≤ 0 := by
  fin_cases hv
  · exact ⟨(0, 0), by decide⟩
  · exact ⟨(-2, 0), by decide⟩
  · exact ⟨(-4, 0), by decide⟩

lemma impact_opt_balance (v : String)
    (hv : v ∈ ["Excellent (45-56 seconds)", "Good (35-44 seconds)", "Fair (25-34 seconds)",
      "Poor (Below 25 seconds)"]) :
    ∃ pm : Int × Int, lookupImpact "balance_test" v = some pm ∧
      -2 ≤ pm.1 ∧ pm.1 ≤ 0 ∧ 0 ≤ pm.2 ∧ pm.2 ≤ 0 := by
  fin_cases hv
  · exact ⟨(0, 0), by decide⟩
  · exact ⟨(0, 0), by decide⟩
  · exact ⟨(-1, 0), by decide⟩
  · exact ⟨(-2, 0), by decide⟩

lemma impact_opt_driving (v : String)
    (hv : v ∈ ["Safe Driver", "Minor Concerns", "Major Concerns", "Unsafe to Drive"]) :
    ∃ pm : Int × Int, lookupImpact "driving_safety" v = some pm ∧
      -3 ≤ pm.1 ∧ pm.1 ≤ 0 ∧ 0 ≤ pm.2 ∧ pm.2 ≤ 0 := by
  fin_cases hv
  · exact ⟨(0, 0), by decide⟩
  · exact ⟨(-1, 0), by decide⟩
  · exact ⟨(-2, 0), by decide⟩
  · exact ⟨(-3, 0), by decide⟩

lemma impact_opt_nighttime (v : String)
    (hv : v ∈ ["Normal Patterns", "Slightly Increased", "Significantly Increased",
      "Concerning Patterns"]) :
    ∃ pm : Int × Int, lookupImpact "nighttime_movement" v = some pm ∧
      -2 ≤ pm.1 ∧ pm.1 ≤ 0 ∧ -2 ≤ pm.2 ∧ pm.2 ≤ 0 := by
  fin_cases hv
  · exact ⟨(0, 0), by decide⟩
  · exact ⟨(0, 0), by decide⟩
  · exact ⟨(-1, -1), by decide⟩
  · exact ⟨(-2, -2), by decide⟩

lemma impact_opt_social (v : String)
    (hv : v ∈ ["Highly Engaged", "Moderately Engaged", "Minimally Engaged",
      "Socially Isolated"]) :
    ∃ pm : Int × Int, lookupImpact "social_engagement" v = some pm ∧
      0 ≤ pm.1 ∧ pm.1 ≤ 0 ∧ -4 ≤ pm.2 ∧ pm.2 ≤ 0 := by
  fin_cases hv
  · exact ⟨(0, 0), by decide⟩
  · exact ⟨(0, 0), by decide⟩
  · exact ⟨(0, -2), by decide⟩
  · exact ⟨(0, -4), by decide⟩

lemma impact_opt_toilet (v : String)
    (hv : v ∈ ["Normal (6-8 times)", "Slightly Elevated (9-12 times)", "Elevated (13-16 times)",
      "Very High (17+ times)"]) :
    ∃ pm : Int × Int, lookupImpact "toilet_flush_count" v = some pm ∧
      -2 ≤ pm.1 ∧ pm.1 ≤ 0 ∧ 0 ≤ pm.2 ∧ pm.2 ≤ 0 := by
  fin_cases hv
  · exact ⟨(0, 0), by decide⟩
  · exact ⟨(0, 0), by decide⟩
  · exact ⟨(-1, 0), by decide⟩
  · exact ⟨(-2, 0), by decide⟩

/-- C8: validate_responses emits exactly one error per missing question
and one per question answered outside its permitted options, and
process_assessment returns a structured error (no ScoreResult) whenever
that error list is non-empty. -/
theorem validation_structured_errors :
    ∀ responses : List (String × String),
      ((validate_responses responses).2).length =
        (questions.filter (fun q => (responses.lookup q.name).isNone)).length +
        (questions.filter (fun q =>
          match responses.lookup q.name with
          | some v => decide (v ∉ q.options)
          | none => false)).length ∧
      ∀ d : AssessmentData, d.responses = some responses →
        (validate_responses responses).2 ≠ [] →
        ∃ msg details, process_assessment d = ProcResult.err msg details := by
  intro responses
  constructor
  · have h := validate_foldl_count responses questions ([], [])
    simpa [validate_responses] using h
  · intro d hd hne
    have herr : validate_assessment_json d ≠ [] := by
      unfold validate_assessment_json
      rw [hd]
      intro hc
      rcases List.append_eq_nil.mp hc with ⟨-, hC⟩
      exact hne hC
    simp only [process_assessment]
    rw [if_neg herr]
    exact ⟨_, _, rfl⟩

set_option maxRecDepth 10000 in
/-- C8 witness: the empty responses mapping misses all nine questions,
giving nine errors, and a payload carrying it is rejected with a
structured error. -/
theorem validation_structured_errors_witness :
    ((validate_responses ([] : List (String × String))).2).length =
      (questions.filter (fun q =>
        ((([] : List (String × String))).lookup q.name).isNone)).length +
      (questions.filter (fun q =>
        match ([] : List (String × String)).lookup q.name with
        | some v => decide (v ∉ q.options)
        | none => false)).length ∧
    (validate_responses ([] : List (String × String))).2 ≠ [] ∧
    ∃ msg details,
      process_assessment
        (AssessmentData.mk (some "2024-01-01")
          (some (Patient.mk (some "patient@example.com") none none))
          (some ([] : List (String × String)))) = ProcResult.err msg details := by
  have hne : (validate_responses ([] : List (String × String))).2 ≠ [] := by decide
  exact ⟨(validation_structured_errors []).1, hne,
    (validation_structured_errors []).2 _ rfl hne⟩

set_option maxRecDepth 10000 in
/-- C10: every ResponseSet that passes validation has summed physical
delta at least -23 and summed mental delta at least -13, hence
physical_score at least 77, mental_score at least 87, insight_score at
least 81.0, and a tier of Independent or Monitor: Assist and Intervene
are unreachable from valid questionnaire input. -/
theorem valid_responses_tier_bound :
    ∀ rs : List (String × String),
      (validate_responses rs).2 = [] →
      -23 ≤ (calculate_scores (validate_responses rs).1).physical_delta ∧
      -13 ≤ (calculate_scores (validate_responses rs).1).mental_delta ∧
      77 ≤ (calculate_scores (validate_responses rs).1).physical_score ∧
      87 ≤ (calculate_scores (validate_responses rs).1).mental_score ∧
      (81 : ℚ) ≤ (calculate_scores (validate_responses rs).1).insight_score ∧
      ((calculate_scores (validate_responses rs).1).tier = Tier.Independent ∨
        (calculate_scores (validate_responses rs).1).tier = Tier.Monitor) := by
  intro rs h
  rw [validate_responses] at h
  obtain ⟨-, hgood, hvalid⟩ := validate_foldl_ok rs questions ([], []) h
  obtain ⟨v1, hl1, ho1⟩ := hgood
    { name := "fall_risk", label := "Fall Risk Assessment",
      options := ["Low", "Moderate", "High"] } (by simp [questions])
  obtain ⟨v2, hl2, ho2⟩ := hgood
    { name := "medication_adherence", label := "Medication Adherence",
      options := ["Excellent (95-100%)", "Good (80-94%)", "Fair (65-79%)", "Poor (Below 65%)"] }
    (by simp [questions])
  obtain ⟨v3, hl3, ho3⟩ := hgood
    { name := "cognitive_function", label := "Cognitive Function Score",
      options := ["Normal (26-30)", "Mild Impairment (21-25)", "Moderate Impairment (10-20)",
        "Severe Impairment (0-9)"] } (by simp [questions])
  obtain ⟨v4, hl4, ho4⟩ := hgood
    { name := "uti_risk", label := "UTI Risk Factors",
      options := ["Low Risk", "Moderate Risk", "High Risk"] } (by simp [questions])
  obtain ⟨v5, hl5, ho5⟩ := hgood
    { name := "balance_test", label := "Balance Test Result",
      options := ["Excellent (45-56 seconds)", "Good (35-44 seconds)", "Fair (25-34 seconds)",
        "Poor (Below 25 seconds)"] } (by simp [questions])
  obtain ⟨v6, hl6, ho6⟩ := hgood
    { name := "driving_safety", label := "Driving Safety Status",
      options := ["Safe Driver", "Minor Concerns", "Major Concerns", "Unsafe to Drive"] }
    (by simp [questions])
  obtain ⟨v7, hl7, ho7⟩ := hgood
    { name := "nighttime_movement", label := "Nighttime Movement Patterns",
      options := ["Normal Patterns", "Slightly Increased", "Significantly Increased",
        "Concerning Patterns"] } (by simp [questions])
  obtain ⟨v8, hl8, ho8⟩ := hgood
    { name := "social_engagement", label := "Social Engagement Level",
      options := ["Highly Engaged", "Moderately Engaged", "Minimally Engaged",
        "Socially Isolated"] } (by simp [questions])
  obtain ⟨v9, hl9, ho9⟩ := hgood
    { name := "toilet_flush_count", label := "Daily Toilet Flush Count",
      options := ["Normal (6-8 times)", "Slightly Elevated (9-12 times)",
        "Elevated (13-16 times)", "Very High (17+ times)"] } (by simp [questions])
  have hl1g : rs.lookup "fall_risk" = some v1 := hl1
  have hl2g : rs.lookup "medication_adherence" = some v2 := hl2
  have hl3g : rs.lookup "cognitive_function" = some v3 := hl3
  have hl4g : rs.lookup "uti_risk" = some v4 := hl4
  have hl5g : rs.lookup "balance_test" = some v5 := hl5
  have hl6g : rs.lookup "driving_safety" = some v6 := hl6
  have hl7g : rs.lookup "nighttime_movement" = some v7 := hl7
  have hl8g : rs.lookup "social_engagement" = some v8 := hl8
  have hl9g : rs.lookup "toilet_flush_count" = some v9 := hl9
  have hL : (validate_responses rs).1 =
      [("fall_risk", v1), ("medication_adherence", v2), ("cognitive_function", v3),
       ("uti_risk", v4), ("balance_test", v5), ("driving_safety", v6),
       ("nighttime_movement", v7), ("social_engagement", v8), ("toilet_flush_count", v9)] := by
    rw [validate_responses, hvalid]
    simp [questions, hl1g, hl2g, hl3g, hl4g, hl5g, hl6g, hl7g, hl8g, hl9g]
  obtain ⟨pm1, hi1, hb1a, hb1b, hb1c, hb1d⟩ := impact_opt_fall_risk v1 ho1
  obtain ⟨pm2, hi2, hb2a, hb2b, hb2c, hb2d⟩ := impact_opt_medication v2 ho2
  obtain ⟨pm3, hi3, hb3a, hb3b, hb3c, hb3d⟩ := impact_opt_cognitive v3 ho3
  obtain ⟨pm4, hi4, hb4a, hb4b, hb4c, hb4d⟩ := impact_opt_uti v4 ho4
  obtain ⟨pm5, hi5, hb5a, hb5b, hb5c, hb5d⟩ := impact_opt_balance v5 ho5
  obtain ⟨pm6, hi6, hb6a, hb6b, hb6c, hb6d⟩ := impact_opt_driving v6 ho6
  obtain ⟨pm7, hi7, hb7a, hb7b, hb7c, hb7d⟩ := impact_opt_nighttime v7 ho7
  obtain ⟨pm8, hi8, hb8a, hb8b, hb8c, hb8d⟩ := impact_opt_social v8 ho8
  obtain ⟨pm9, hi9, hb9a, hb9b, hb9c, hb9d⟩ := impact_opt_toilet v9 ho9
  rw [hL]
  have hD : -23 ≤ (resolveDeltas
        [("fall_risk", v1), ("medication_adherence", v2), ("cognitive_function", v3),
         ("uti_risk", v4), ("balance_test", v5), ("driving_safety", v6),
         ("nighttime_movement", v7), ("social_engagement", v8), ("toilet_flush_count", v9)]).1 ∧
      -13 ≤ (resolveDeltas
        [("fall_risk", v1), ("medication_adherence", v2), ("cognitive_function", v3),
         ("uti_risk", v4), ("balance_test", v5), ("driving_safety", v6),
         ("nighttime_movement", v7), ("social_engagement", v8), ("toilet_flush_count", v9)]).2 := by
    rw [resolveDeltas_cons_some _ _ _ _ hi1, resolveDeltas_cons_some _ _ _ _ hi2,
        resolveDeltas_cons_some _ _ _ _ hi3, resolveDeltas_cons_some _ _ _ _ hi4,
        resolveDeltas_cons_some _ _ _ _ hi5, resolveDeltas_cons_some _ _ _ _ hi6,
        resolveDeltas_cons_some _ _ _ _ hi7, resolveDeltas_cons_some _ _ _ _ hi8,
        resolveDeltas_cons_some _ _ _ _ hi9, resolveDeltas_nil]
    constructor <;> dsimp <;> omega
  have hps : 77 ≤ (calculate_scores
      [("fall_risk", v1), ("medication_adherence", v2), ("cognitive_function", v3),
       ("uti_risk", v4), ("balance_test", v5), ("driving_safety", v6),
       ("nighttime_movement", v7), ("social_engagement", v8),
       ("toilet_flush_count", v9)]).physical_score := by
    rw [cs_physical_score]
    omega
  have hms : 87 ≤ (calculate_scores
      [("fall_risk", v1), ("medication_adherence", v2), ("cognitive_function", v3),
       ("uti_risk", v4), ("balance_test", v5), ("driving_safety", v6),
       ("nighttime_movement", v7), ("social_engagement", v8),
       ("toilet_flush_count", v9)]).mental_score := by
    rw [cs_mental_score]
    omega
  have hins : (81 : ℚ) ≤ (calculate_scores
      [("fall_risk", v1), ("medication_adherence", v2), ("cognitive_function", v3),
       ("uti_risk", v4), ("balance_test", v5), ("driving_safety", v6),
       ("nighttime_movement", v7), ("social_engagement", v8),
       ("toilet_flush_count", v9)]).insight_score := by
    rw [cs_insight_exact]
    rw [le_div_iff₀ (by norm_num : (0 : ℚ) < 10)]
    have h810 : (810 : ℤ) ≤
        6 * (calculate_scores
          [("fall_risk", v1), ("medication_adherence", v2), ("cognitive_function", v3),
           ("uti_risk", v4), ("balance_test", v5), ("driving_safety", v6),
           ("nighttime_movement", v7), ("social_engagement", v8),
           ("toilet_flush_count", v9)]).physical_score +
        4 * (calculate_scores
          [("fall_risk", v1), ("medication_adherence", v2), ("cognitive_function", v3),
           ("uti_risk", v4), ("balance_test", v5), ("driving_safety", v6),
           ("nighttime_movement", v7), ("social_engagement", v8),
           ("toilet_flush_count", v9)]).mental_score := by
      omega
    calc (81 : ℚ) * 10 = ((810 : ℤ) : ℚ) := by norm_num
    _ ≤ _ := by exact_mod_cast h810
  refine ⟨?_, ?_, hps, hms, hins, ?_⟩
  · rw [cs_physical_delta]
    exact hD.1
  · rw [cs_mental_delta]
    exact hD.2
  · rw [cs_tier]
    unfold get_insight_tier
    split_ifs with t1 t2 t3
    · exact Or.inl rfl
    · exact Or.inr rfl
    · exact absurd hins (by intro hc; exact t2 (by linarith))
    · exact absurd hins (by intro hc; exact t2 (by linarith))

set_option maxRecDepth 10000 in
/-- C10 witness: the worst-case ResponseSet passes validation and attains
the bounds, with tier Monitor. -/
theorem valid_responses_tier_bound_witness :
    (validate_responses worstCaseResponses).2 = [] ∧
    (-23 ≤ (calculate_scores (validate_responses worstCaseResponses).1).physical_delta ∧
      -13 ≤ (calculate_scores (validate_responses worstCaseResponses).1).mental_delta ∧
      77 ≤ (calculate_scores (validate_responses worstCaseResponses).1).physical_score ∧
      87 ≤ (calculate_scores (validate_responses worstCaseResponses).1).mental_score ∧
      (81 : ℚ) ≤ (calculate_scores (validate_responses worstCaseResponses).1).insight_score ∧
      ((calculate_scores (validate_responses worstCaseResponses).1).tier = Tier.Independent ∨
        (calculate_scores (validate_responses worstCaseResponses).1).tier = Tier.Monitor)) :=
  ⟨by decide, valid_responses_tier_bound worstCaseResponses (by decide)⟩

end RemoteHomeCheckScorer
